import Mathlib

/-!
Shallow embedding of `src/cpu.py`, an LS-8 CPU emulator.

Modelling conventions:
* Python `list` values (`self.register`, `self.ram`) are `List Int`; Python
  integers are `Int` (unbounded, as in Python — the code never masks).
* Python list indexing (`l[i]`) supports negative indices counting from the
  end; an index outside `[-len, len)` raises `IndexError`.  `pyGet`/`pySet`
  return `none` exactly where Python raises.
* Python `%` on integers is floor-style: `Int.fmod`.  Python `>>` is
  `Int.fdiv _ (2 ^ n)` (arithmetic shift), `<<` is `* 2 ^ n` and raises
  `ValueError` for a negative count.  Python `&` on arbitrary integers is
  two's-complement `Int.land`.
* Each handler method becomes a function `CPU → Except Exc CPU` (or with the
  two operand arguments for ALU handlers).  An exception aborts the cycle; in
  `step`, the state carried by an `exn` result is the state at the start of
  the cycle (no claim inspects partial writes made before an exception).
* `print` of a numeric value (PRN) appends to `output`.  Diagnostic prints
  that accompany a termination (`Invalid instructions …`, `Unable to divide
  by 0`) are represented by the corresponding result constructor, which
  carries the offending byte where the Python message interpolates it.
* `branch_table[CALL]()` invokes `call(self, reg_number, value)` with no
  arguments, a Python `TypeError`; the dispatch models this directly.
-/

set_option maxRecDepth 100000

namespace LS8

/-- Exceptions that can escape a cycle of the interpreter loop. -/
inductive Exc where
  /-- Python `IndexError`: list index out of range. -/
  | indexError
  /-- Python `TypeError`: handler invoked with the wrong number of arguments. -/
  | typeError
  /-- `raise Exception("Unsupported ALU operation")` in `CPU.alu`. -/
  | unsupportedALU
  /-- Python `ValueError`: negative shift count. -/
  | valueError
  /-- `print("Unable to divide by 0"); sys.exit()` in `CPU.MOD`. -/
  | divZeroExit
deriving Repr, DecidableEq

/-- Python list index resolution: a nonnegative index must be `< len`, a
negative index `i` with `-len ≤ i` addresses `len + i`; anything else is an
`IndexError` (`none`). -/
def pyIdx (len : Nat) (i : Int) : Option Nat :=
  if 0 ≤ i ∧ i < (len : Int) then some i.toNat
  else if -(len : Int) ≤ i ∧ i < 0 then some ((len : Int) + i).toNat
  else none

/-- Python `l[i]` read. -/
def pyGet (l : List Int) (i : Int) : Option Int :=
  (pyIdx l.length i).bind fun n => l.get? n

/-- Python `l[i] = v` write. -/
def pySet (l : List Int) (i : Int) (v : Int) : Option (List Int) :=
  (pyIdx l.length i).map fun n => l.set n v

/-- Lift an optional value into `Except`, raising `IndexError` on `none`. -/
def idxE : Option α → Except Exc α
  | none => .error .indexError
  | some a => .ok a

/-- The CPU state: 8 general-purpose registers (`R7` is the stack pointer),
256 bytes of RAM, program counter, flags register, running flag, and the
numeric lines printed so far by `PRN`. -/
structure CPU where
  register : List Int
  ram : List Int
  pc : Int
  flag : Int
  running : Bool
  output : List Int
deriving Repr, DecidableEq

/-- Python `a << b` (raises on negative count). -/
def pyShl (a b : Int) : Except Exc Int :=
  if b < 0 then .error .valueError else .ok (a * 2 ^ b.toNat)

/-- Python `a >> b` (floor division by a power of two; raises on negative
count). -/
def pyShr (a b : Int) : Except Exc Int :=
  if b < 0 then .error .valueError else .ok (Int.fdiv a (2 ^ b.toNat))

/-- `CPU.ADD`: `self.register[register_a] += self.register[register_b]`. -/
def ADD (s : CPU) (ra rb : Int) : Except Exc CPU := do
  let a ← idxE (pyGet s.register ra)
  let b ← idxE (pyGet s.register rb)
  let reg ← idxE (pySet s.register ra (a + b))
  .ok { s with register := reg }

/-- `CPU.MUL`: `self.register[register_a] *= self.register[register_b]`. -/
def MUL (s : CPU) (ra rb : Int) : Except Exc CPU := do
  let a ← idxE (pyGet s.register ra)
  let b ← idxE (pyGet s.register rb)
  let reg ← idxE (pySet s.register ra (a * b))
  .ok { s with register := reg }

/-- `CPU.AND`: bitwise and of the two register values into `register_a`. -/
def AND (s : CPU) (ra rb : Int) : Except Exc CPU := do
  let a ← idxE (pyGet s.register ra)
  let b ← idxE (pyGet s.register rb)
  let reg ← idxE (pySet s.register ra (Int.land a b))
  .ok { s with register := reg }

/-- `CPU.OR`: bitwise or of the two register values into `register_a`. -/
def OR (s : CPU) (ra rb : Int) : Except Exc CPU := do
  let a ← idxE (pyGet s.register ra)
  let b ← idxE (pyGet s.register rb)
  let reg ← idxE (pySet s.register ra (Int.lor a b))
  .ok { s with register := reg }

/-- `CPU.XOR`: bitwise xor of the two register values into `register_a`. -/
def XOR (s : CPU) (ra rb : Int) : Except Exc CPU := do
  let a ← idxE (pyGet s.register ra)
  let b ← idxE (pyGet s.register rb)
  let reg ← idxE (pySet s.register ra (Int.xor a b))
  .ok { s with register := reg }

/-- `CPU.NOT`: `self.register[register_a] = ~self.register[register_a]`;
Python `~a` is `-a - 1`. -/
def NOT (s : CPU) (ra _rb : Int) : Except Exc CPU := do
  let a ← idxE (pyGet s.register ra)
  let reg ← idxE (pySet s.register ra (-a - 1))
  .ok { s with register := reg }

/-- `CPU.SHL`: `self.register[register_a] <<= self.register[register_b]`
(written with an explicit read and write in the source). -/
def SHL (s : CPU) (ra rb : Int) : Except Exc CPU := do
  let a ← idxE (pyGet s.register ra)
  let b ← idxE (pyGet s.register rb)
  let v ← pyShl a b
  let reg ← idxE (pySet s.register ra v)
  .ok { s with register := reg }

/-- `CPU.SHR`: arithmetic right shift of `register_a` by `register_b`. -/
def SHR (s : CPU) (ra rb : Int) : Except Exc CPU := do
  let a ← idxE (pyGet s.register ra)
  let b ← idxE (pyGet s.register rb)
  let v ← pyShr a b
  let reg ← idxE (pySet s.register ra v)
  .ok { s with register := reg }

/-- `CPU.MOD`: prints "Unable to divide by 0" and calls `sys.exit()` when the
divisor register holds 0, otherwise `self.register[register_a] %=
self.register[register_b]`. -/
def MOD (s : CPU) (ra rb : Int) : Except Exc CPU := do
  let b ← idxE (pyGet s.register rb)
  if b = 0 then
    .error .divZeroExit
  else do
    let a ← idxE (pyGet s.register ra)
    let reg ← idxE (pySet s.register ra (Int.fmod a b))
    .ok { s with register := reg }

/-- `CPU.CMP`: sets the flag register to 1 (equal), 2 (greater) or 4 (less). -/
def CMP (s : CPU) (ra rb : Int) : Except Exc CPU := do
  let a ← idxE (pyGet s.register ra)
  let b ← idxE (pyGet s.register rb)
  if a = b then .ok { s with flag := 1 }
  else if a > b then .ok { s with flag := 2 }
  else .ok { s with flag := 4 }

/-- `CPU.LDI`: `self.register[ram[pc+1]] = ram[pc+2]`. -/
def LDI (s : CPU) : Except Exc CPU := do
  let reg_number ← idxE (pyGet s.ram (s.pc + 1))
  let value ← idxE (pyGet s.ram (s.pc + 2))
  let reg ← idxE (pySet s.register reg_number value)
  .ok { s with register := reg }

/-- `CPU.PRN`: prints the numeric value in the register named by `ram[pc+1]`. -/
def PRN (s : CPU) : Except Exc CPU := do
  let reg_number ← idxE (pyGet s.ram (s.pc + 1))
  let v ← idxE (pyGet s.register reg_number)
  .ok { s with output := s.output ++ [v] }

/-- `CPU.push`: decrements the stack pointer, writes `register[ram[pc+1]]` to
RAM at the new stack pointer, adds 2 to `pc` itself, then (re-reading the
operand at the advanced `pc`) writes `register[ram[pc+3]]` over the same RAM
cell. -/
def push (s : CPU) : Except Exc CPU := do
  let sp0 ← idxE (pyGet s.register 7)
  let reg1 ← idxE (pySet s.register 7 (sp0 - 1))
  let s1 : CPU := { s with register := reg1 }
  let sp ← idxE (pyGet s1.register 7)
  let rn ← idxE (pyGet s1.ram (s1.pc + 1))
  let v ← idxE (pyGet s1.register rn)
  let ram1 ← idxE (pySet s1.ram sp v)
  let s2 : CPU := { s1 with ram := ram1, pc := s1.pc + 2 }
  let rn2 ← idxE (pyGet s2.ram (s2.pc + 1))
  let sp2 ← idxE (pyGet s2.register 7)
  let v2 ← idxE (pyGet s2.register rn2)
  let ram2 ← idxE (pySet s2.ram sp2 v2)
  .ok { s2 with ram := ram2 }

/-- `CPU.pop`: `register[ram[pc+1]] = ram[register[7]]`, increments the stack
pointer, then adds 2 to `pc` itself. -/
def pop (s : CPU) : Except Exc CPU := do
  let sp ← idxE (pyGet s.register 7)
  let v ← idxE (pyGet s.ram sp)
  let rn ← idxE (pyGet s.ram (s.pc + 1))
  let reg1 ← idxE (pySet s.register rn v)
  let sp2 ← idxE (pyGet reg1 7)
  let reg2 ← idxE (pySet reg1 7 (sp2 + 1))
  .ok { s with register := reg2, pc := s.pc + 2 }

/-- `CPU.jmp`: `pc = register[ram[pc+1]]`. -/
def jmp (s : CPU) : Except Exc CPU := do
  let rn ← idxE (pyGet s.ram (s.pc + 1))
  let v ← idxE (pyGet s.register rn)
  .ok { s with pc := v }

/-- `CPU.jeq`: jump to `register[ram[pc+1]]` when `flag & 1` is truthy,
otherwise `pc += 2`. -/
def jeq (s : CPU) : Except Exc CPU := do
  let rn ← idxE (pyGet s.ram (s.pc + 1))
  if Int.land s.flag 1 ≠ 0 then do
    let v ← idxE (pyGet s.register rn)
    .ok { s with pc := v }
  else
    .ok { s with pc := s.pc + 2 }

/-- `CPU.jne`: jump to `register[ram[pc+1]]` when `flag & 1` is falsy,
otherwise `pc += 2`. -/
def jne (s : CPU) : Except Exc CPU := do
  let rn ← idxE (pyGet s.ram (s.pc + 1))
  if Int.land s.flag 1 = 0 then do
    let v ← idxE (pyGet s.register rn)
    .ok { s with pc := v }
  else
    .ok { s with pc := s.pc + 2 }

/-- `CPU.call` as written in the source: decrements the stack pointer, then
`ram_write(value, sp)` — which, given `ram_write(address, value)`, stores the
stack pointer into RAM at address `value` — then binds the local `value` to
`register[reg_number]` without ever assigning `pc`.  The dispatcher can never
actually reach this body: `branch_table[CALL]()` passes no arguments. -/
def call (s : CPU) (reg_number value : Int) : Except Exc CPU := do
  let sp0 ← idxE (pyGet s.register 7)
  let reg1 ← idxE (pySet s.register 7 (sp0 - 1))
  let sp := sp0 - 1
  let ram1 ← idxE (pySet s.ram value sp)
  let _ ← idxE (pyGet reg1 reg_number)
  .ok { s with register := reg1, ram := ram1 }

/-- `CPU.ret`: `pc = ram[register[7]]`, then increments the stack pointer. -/
def ret (s : CPU) : Except Exc CPU := do
  let sp ← idxE (pyGet s.register 7)
  let v ← idxE (pyGet s.ram sp)
  let reg ← idxE (pySet s.register 7 (sp + 1))
  .ok { s with pc := v, register := reg }

/-- Membership in `self.branch_table` (keys listed in `CPU.__init__`):
LDI 130, PRN 71, MUL 162, ADD 160, CMP 167, AND 168, OR 170, XOR 171,
NOT 105, SHL 172, SHR 173, MOD 164, PUSH 69, POP 70, CALL 80, RET 17,
JMP 84, JEQ 85, JNE 86. -/
def inTable (ir : Int) : Bool :=
  ir == 130 || ir == 71 || ir == 162 || ir == 160 || ir == 167 || ir == 168 ||
  ir == 170 || ir == 171 || ir == 105 || ir == 172 || ir == 173 || ir == 164 ||
  ir == 69 || ir == 70 || ir == 80 || ir == 17 || ir == 84 || ir == 85 ||
  ir == 86

/-- `CPU.alu`: dispatch through `branch_table` with the two operand bytes, or
`raise Exception("Unsupported ALU operation")` when the opcode has no entry.
A table entry whose handler does not take two arguments would raise a
`TypeError` (these cases are unreachable because `alu` is only called for
opcodes with the ALU bit set). -/
def alu (s : CPU) (op ra rb : Int) : Except Exc CPU :=
  if inTable op then
    if op = 160 then ADD s ra rb
    else if op = 162 then MUL s ra rb
    else if op = 167 then CMP s ra rb
    else if op = 168 then AND s ra rb
    else if op = 170 then OR s ra rb
    else if op = 171 then XOR s ra rb
    else if op = 105 then NOT s ra rb
    else if op = 172 then SHL s ra rb
    else if op = 173 then SHR s ra rb
    else if op = 164 then MOD s ra rb
    else if op = 80 then call s ra rb
    else .error .typeError
  else .error .unsupportedALU

/-- Result of one iteration of the `while self.running` loop in `CPU.run`:
either the iteration completed (`ok`), or it printed
`Invalid instructions {bin(ir)}` and broke out of the loop (`invalid`,
carrying the offending byte), or an exception escaped (`exn`). -/
inductive StepResult where
  | ok (s : CPU)
  | invalid (b : Int) (s : CPU)
  | exn (e : Exc) (s : CPU)
deriving Repr, DecidableEq

/-- Dispatch of one fetched instruction in the loop body of `CPU.run`:
`if is_ALU: self.alu(ir, …)`, `elif ir in self.branch_table:
self.branch_table[ir]()` (which for CALL raises `TypeError`, since `call`
requires two positional arguments), `elif ir == HLT: self.running = False`.
The final `else` (print the invalid byte and `break`) is handled in
`stepWith`. -/
def dispatch (s : CPU) (ir ra rb : Int) : Except Exc CPU :=
  if Int.fdiv (Int.land ir 32) 32 = 1 then alu s ir ra rb
  else if inTable ir then
    if ir = 130 then LDI s
    else if ir = 71 then PRN s
    else if ir = 69 then push s
    else if ir = 70 then pop s
    else if ir = 80 then .error .typeError
    else if ir = 17 then ret s
    else if ir = 84 then jmp s
    else if ir = 85 then jeq s
    else jne s
  else .ok { s with running := false }

/-- The loop body of `CPU.run` after the three RAM reads succeeded: decode
`inst_len = (ir >> 6) + 1`, `is_ALU = (ir & 0b00100000) >> 5 == 1`,
`sets_pc = (ir & 0b00010000) >> 4 == 1`, dispatch, and finally add
`inst_len` to `pc` unless `sets_pc`.  An opcode that is neither ALU-flagged
nor in the table nor HLT prints `Invalid instructions {bin(ir)}` and breaks
out of the loop without advancing `pc`. -/
def stepWith (s : CPU) (ir ra rb : Int) : StepResult :=
  if Int.fdiv (Int.land ir 32) 32 = 1 ∨ inTable ir = true ∨ ir = 1 then
    match dispatch s ir ra rb with
    | .error e => .exn e s
    | .ok s1 =>
      .ok (if Int.fdiv (Int.land ir 16) 16 = 1 then s1
           else { s1 with pc := s1.pc + (Int.fdiv ir 64 + 1) })
  else .invalid ir s

/-- One iteration of the loop body of `CPU.run`: fetch `ir = ram[pc]`, read
both operand bytes (each read can raise `IndexError`), then run `stepWith`. -/
def step (s : CPU) : StepResult :=
  match pyGet s.ram s.pc, pyGet s.ram (s.pc + 1), pyGet s.ram (s.pc + 2) with
  | some ir, some ra, some rb => stepWith s ir ra rb
  | _, _, _ => .exn .indexError s

/-- Result of `CPU.run`: the loop exited because `running` became false
(`halted`), or it printed the invalid-instruction message and broke
(`invalid`), or an exception escaped (`exn`), or the fuel ran out while the
machine was still running (`more`). -/
inductive RunResult where
  | halted (s : CPU)
  | invalid (b : Int) (s : CPU)
  | exn (e : Exc) (s : CPU)
  | more (s : CPU)
deriving Repr, DecidableEq

/-- `CPU.run`: iterate `step` while `self.running`, with explicit fuel. -/
def run : Nat → CPU → RunResult
  | 0, s => .more s
  | n + 1, s =>
    if s.running then
      match step s with
      | .ok s1 => run n s1
      | .invalid b s1 => .invalid b s1
      | .exn e s1 => .exn e s1
    else .halted s

/-- `CPU.__init__` followed by `CPU.load` of a program whose bytes are
`prog`: 8 registers all zero except `R7 = 0xF4`, 256 bytes of RAM with the
program at address 0, `pc = 0`, `flag = 0`, `running = True`. -/
def mkCPU (prog : List Int) : CPU :=
  { register := [0, 0, 0, 0, 0, 0, 0, 0xF4]
    ram := prog ++ List.replicate (256 - prog.length) 0
    pc := 0
    flag := 0
    running := true
    output := [] }

/-- The CPU state carried by a `RunResult`, whichever way the loop ended. -/
def resultState : RunResult → CPU
  | .halted s => s
  | .invalid _ s => s
  | .exn _ s => s
  | .more s => s

/-- Whether a loop iteration completed without breaking or raising. -/
def isOk : StepResult → Bool
  | .ok _ => true
  | _ => false

/-- The demo program of the specification: LDI R0,8; LDI R1,9; ADD R0,R1;
PRN R0; HLT. -/
def demoProgram : List Int := [130, 0, 8, 130, 1, 9, 160, 0, 1, 71, 0, 1]

/-- A state about to execute PUSH R0 (at address 0) and then POP R0 (at
address 4, where the loop lands after the PUSH): `R0 = 5`, `R1 = 7`,
`SP = 0xF4`.  The byte at address 3 — which `push` re-reads as its operand
after advancing `pc` — names register 1. -/
def pushPopState : CPU :=
  { register := [5, 7, 0, 0, 0, 0, 0, 244]
    ram := [69, 0, 99, 1, 70, 0] ++ List.replicate 250 0
    pc := 0
    flag := 0
    running := true
    output := [] }

/-- A state whose next instruction is ADD R0,R1 with `R0 = 255`, `R1 = 1`. -/
def overflowState : CPU :=
  { register := [255, 1, 0, 0, 0, 0, 0, 244]
    ram := [160, 0, 1, 0]
    pc := 0
    flag := 0
    running := true
    output := [] }

/-- A state about to execute PUSH R0 with the stack pointer already at 0, so
that the decremented stack pointer is the negative address -1. -/
def negSpState : CPU :=
  { register := [5, 0, 0, 0, 0, 0, 0, 0]
    ram := [69] ++ List.replicate 255 0
    pc := 0
    flag := 0
    running := true
    output := [] }

/-- A state with the equal flag set whose next instruction is JEQ R0 with
`R0 = 9`. -/
def jeqState : CPU :=
  { register := [9, 0, 0, 0, 0, 0, 0, 244]
    ram := [85, 0, 0, 0]
    pc := 0
    flag := 1
    running := true
    output := [] }

/-- A state whose next instruction is MOD R0,R1 with the divisor `R1 = 0`. -/
def modZeroState : CPU :=
  { register := [5, 0, 0, 0, 0, 0, 0, 244]
    ram := [164, 0, 1, 0]
    pc := 0
    flag := 0
    running := true
    output := [] }

/-- A canonical state placing opcode `b` at address 0 with operand bytes 0
and 1, registers `R0 = 2`, `R1 = 3`, stack pointer 3, on a small RAM: every
implemented handler succeeds from here. -/
def canonState (b : Int) : CPU :=
  { register := [2, 3, 0, 0, 0, 0, 0, 3]
    ram := [b, 0, 1, 0, 0, 0, 0, 0]
    pc := 0
    flag := 0
    running := true
    output := [] }

/-- The state produced by executing the `push` handler from `canonState 69`:
`R7` decremented to 2, RAM cell 2 overwritten with `R0 = 2`, and `pc`
advanced to 2 by the handler itself. -/
def pushedState : CPU :=
  { register := [2, 3, 0, 0, 0, 0, 0, 2]
    ram := [69, 0, 2, 0, 0, 0, 0, 0]
    pc := 2
    flag := 0
    running := true
    output := [] }

/-! Helper lemmas about the monadic plumbing. -/

theorem bind_ok_ex {α β : Type} {e : Except Exc α} {f : α → Except Exc β}
    {b : β} (h : Bind.bind e f = Except.ok b) :
    ∃ v, e = Except.ok v ∧ f v = Except.ok b := by
  cases e with
  | error err => exact Except.noConfusion h
  | ok v => exact ⟨v, rfl, h⟩

theorem idxE_eq_ok {α : Type} {o : Option α} {v : α}
    (h : idxE o = Except.ok v) : o = some v := by
  cases o with
  | none => exact Except.noConfusion h
  | some a =>
    have : a = v := Except.ok.inj h
    rw [this]

theorem bind_idxE_some {α β : Type} (v : α) (f : α → Except Exc β) :
    Bind.bind (idxE (some v)) f = f v := rfl

/-- Every successful `push` adds exactly 2 to the program counter. -/
theorem push_ok_pc {s t : CPU} (h : push s = Except.ok t) :
    t.pc = s.pc + 2 := by
  unfold push at h
  obtain ⟨sp0, _, h⟩ := bind_ok_ex h
  obtain ⟨reg1, _, h⟩ := bind_ok_ex h
  obtain ⟨sp, _, h⟩ := bind_ok_ex h
  obtain ⟨rn, _, h⟩ := bind_ok_ex h
  obtain ⟨v, _, h⟩ := bind_ok_ex h
  obtain ⟨ram1, _, h⟩ := bind_ok_ex h
  obtain ⟨rn2, _, h⟩ := bind_ok_ex h
  obtain ⟨sp2, _, h⟩ := bind_ok_ex h
  obtain ⟨v2, _, h⟩ := bind_ok_ex h
  obtain ⟨ram2, _, h⟩ := bind_ok_ex h
  have := Except.ok.inj h
  rw [← this]

/-- Every successful `pop` adds exactly 2 to the program counter. -/
theorem pop_ok_pc {s t : CPU} (h : pop s = Except.ok t) :
    t.pc = s.pc + 2 := by
  unfold pop at h
  obtain ⟨sp, _, h⟩ := bind_ok_ex h
  obtain ⟨v, _, h⟩ := bind_ok_ex h
  obtain ⟨rn, _, h⟩ := bind_ok_ex h
  obtain ⟨reg1, _, h⟩ := bind_ok_ex h
  obtain ⟨sp2, _, h⟩ := bind_ok_ex h
  obtain ⟨reg2, _, h⟩ := bind_ok_ex h
  have := Except.ok.inj h
  rw [← this]

/-- Rewriting `step` once all three RAM reads are known to succeed. -/
theorem step_eq_stepWith {s : CPU} {ir ra rb : Int}
    (h0 : pyGet s.ram s.pc = some ir)
    (h1 : pyGet s.ram (s.pc + 1) = some ra)
    (h2 : pyGet s.ram (s.pc + 2) = some rb) :
    step s = stepWith s ir ra rb := by
  unfold step
  rw [h0, h1, h2]

/-- A successful read at a Python index means the index resolves. -/
theorem pyGet_pyIdx {l : List Int} {i a : Int} (h : pyGet l i = some a) :
    ∃ m, pyIdx l.length i = some m := by
  unfold pyGet at h
  cases hn : pyIdx l.length i with
  | none => rw [hn] at h; simp at h
  | some m => exact ⟨m, rfl⟩

/-- A write at a resolving Python index is a `List.set` at the resolved
position. -/
theorem pySet_some_of_pyIdx {l : List Int} {i : Int} {m : Nat}
    (h : pyIdx l.length i = some m) (v : Int) :
    pySet l i v = some (l.set m v) := by
  simp [pySet, h]

/-! Theorems settling the claims. -/

/-- C1: loading the bytes `LDI R0,8; LDI R1,9; ADD R0,R1; PRN R0; HLT` and
running from `pc = 0` prints exactly the single line `17`, and the loop then
exits with the running flag false (a clean halt, not a fault). -/
theorem demo_prints_17_and_halts :
    run 6 (mkCPU demoProgram) = .halted (resultState (run 6 (mkCPU demoProgram))) ∧
    (resultState (run 6 (mkCPU demoProgram))).output = [17] ∧
    (resultState (run 6 (mkCPU demoProgram))).running = false :=
  ⟨rfl, rfl, rfl⟩

/-- C3: a PUSH of R0 followed by the POP of R0 that the loop next executes
does not restore the pre-PUSH state: from `R0 = 5`, `R1 = 7`, `SP = 0xF4`
(with the byte 1 at address 3, which `push` re-reads as an operand), the
round trip leaves `R0 = 7` and RAM cell 243 changed from 0 to 7, although
the stack pointer does return to 0xF4. -/
theorem push_pop_round_trip_fails :
    run 2 pushPopState = .more (resultState (run 2 pushPopState)) ∧
    pyGet pushPopState.register 0 = some 5 ∧
    pyGet (resultState (run 2 pushPopState)).register 0 = some 7 ∧
    pyGet pushPopState.ram 243 = some 0 ∧
    pyGet (resultState (run 2 pushPopState)).ram 243 = some 7 ∧
    pyGet (resultState (run 2 pushPopState)).register 7 = some 244 :=
  ⟨rfl, rfl, rfl, rfl, rfl, rfl⟩

/-- C4 counterexample: opcode `0b00100001` (33) has its ALU bit set and no
dispatcher entry, and fetching it makes the `Unsupported ALU operation`
exception escape the loop instead of being reported as an invalid opcode. -/
theorem alu_gap_exception_escapes :
    run 1 (mkCPU [33]) = .exn .unsupportedALU (mkCPU [33]) := rfl

/-- C5 counterexample: NOP (`0b00000000`) has no dispatcher entry, so the
loop reports it as an invalid instruction and stops, instead of executing it
as a no-op with a normal `pc` advance. -/
theorem nop_is_fatal_decode_error :
    run 1 (mkCPU [0]) = .invalid 0 (mkCPU [0]) := rfl

/-- C5 amended: of the spec's opcode list, exactly LDI, PRN, MUL, ADD, CMP,
AND, OR, XOR, NOT, SHL, SHR, MOD, PUSH, POP, RET, JMP, JEQ and JNE dispatch
to a handler that completes from the canonical state, and HLT clears the
running flag; NOP is reported as an invalid instruction and stops the loop,
SUB, DIV, INC and DEC raise the unsupported-ALU exception, and CALL, though
present in the table, raises a `TypeError` because the dispatcher passes it
no arguments. -/
theorem opcode_support_amended :
    isOk (step (canonState 130)) = true ∧
    isOk (step (canonState 71)) = true ∧
    isOk (step (canonState 162)) = true ∧
    isOk (step (canonState 160)) = true ∧
    isOk (step (canonState 167)) = true ∧
    isOk (step (canonState 168)) = true ∧
    isOk (step (canonState 170)) = true ∧
    isOk (step (canonState 171)) = true ∧
    isOk (step (canonState 105)) = true ∧
    isOk (step (canonState 172)) = true ∧
    isOk (step (canonState 173)) = true ∧
    isOk (step (canonState 164)) = true ∧
    isOk (step (canonState 69)) = true ∧
    isOk (step (canonState 70)) = true ∧
    isOk (step (canonState 17)) = true ∧
    isOk (step (canonState 84)) = true ∧
    isOk (step (canonState 85)) = true ∧
    isOk (step (canonState 86)) = true ∧
    step (canonState 1) = .ok { canonState 1 with running := false, pc := 1 } ∧
    step (canonState 0) = .invalid 0 (canonState 0) ∧
    step (canonState 161) = .exn .unsupportedALU (canonState 161) ∧
    step (canonState 163) = .exn .unsupportedALU (canonState 163) ∧
    step (canonState 101) = .exn .unsupportedALU (canonState 101) ∧
    step (canonState 102) = .exn .unsupportedALU (canonState 102) ∧
    step (canonState 80) = .exn .typeError (canonState 80) := by
  decide

/-- C6: ADD does not mask its result to 8 bits: from `R0 = 255`, `R1 = 1`,
executing ADD leaves `R0 = 256`, not `(255 + 1) % 256 = 0`. -/
theorem add_overflow_not_masked :
    run 1 overflowState = .more (resultState (run 1 overflowState)) ∧
    pyGet (resultState (run 1 overflowState)).register 0 = some 256 ∧
    ((255 + 1) % 256 : Int) = 0 ∧ (256 : Int) ≠ 0 :=
  ⟨rfl, rfl, rfl, by decide⟩

/-- C9 counterexample: a PUSH with the stack pointer at 0 computes the
negative address -1 and silently writes RAM cell 255 (Python indexing from
the end), with the machine still running afterwards — nothing is reported
and execution is not stopped; whereas LDI with the out-of-range register
index 8 raises an uncaught `IndexError` instead of any reported
address-out-of-range failure. -/
theorem address_bounds_counterexample :
    run 1 negSpState = .more (resultState (run 1 negSpState)) ∧
    pyGet negSpState.ram 255 = some 0 ∧
    pyGet (resultState (run 1 negSpState)).ram 255 = some 5 ∧
    (resultState (run 1 negSpState)).running = true ∧
    run 1 (mkCPU [130, 8, 7]) = .exn .indexError (mkCPU [130, 8, 7]) :=
  ⟨rfl, rfl, rfl, rfl, rfl⟩

/-- C2: in every state whose fetched byte is the CALL opcode (0b01010000),
the cycle ends with a `TypeError` escaping the loop — the dispatcher invokes
`call` with no arguments although it declares two — so CALL never decrements
SP, never stores a return address, and never sets PC. -/
theorem call_dispatch_raises_type_error (s : CPU) (ra rb : Int)
    (h0 : pyGet s.ram s.pc = some 80)
    (h1 : pyGet s.ram (s.pc + 1) = some ra)
    (h2 : pyGet s.ram (s.pc + 2) = some rb) :
    step s = .exn .typeError s := by
  rw [step_eq_stepWith h0 h1 h2]
  rfl

/-- Witness for `call_dispatch_raises_type_error` at a concrete state. -/
theorem call_dispatch_witness :
    step (mkCPU [80, 1, 0]) = .exn .typeError (mkCPU [80, 1, 0]) :=
  call_dispatch_raises_type_error (mkCPU [80, 1, 0]) 1 0 rfl rfl rfl

/-- C4 amended: for every fetched byte with no dispatcher entry and distinct
from HLT, if its ALU bit (bit 5) is clear the loop prints the offending byte
and breaks — a reported invalid-opcode stop with no exception — but if the
ALU bit is set, the `Unsupported ALU operation` exception escapes the loop
uncontrolled instead. -/
theorem invalid_opcode_amended (s : CPU) (b ra rb : Int) (n : Nat)
    (hrun : s.running = true)
    (h0 : pyGet s.ram s.pc = some b)
    (h1 : pyGet s.ram (s.pc + 1) = some ra)
    (h2 : pyGet s.ram (s.pc + 2) = some rb)
    (ht : inTable b = false) (hh : b ≠ 1) :
    (Int.land b 32 = 0 → run (n + 1) s = .invalid b s) ∧
    (Int.land b 32 = 32 → run (n + 1) s = .exn .unsupportedALU s) := by
  constructor
  · intro hb5
    have hs : step s = .invalid b s := by
      rw [step_eq_stepWith h0 h1 h2]
      unfold stepWith
      rw [hb5, ht]
      simp [hh]
    simp [run, hrun, hs]
  · intro hb5
    have hs : step s = .exn .unsupportedALU s := by
      rw [step_eq_stepWith h0 h1 h2]
      unfold stepWith dispatch alu
      rw [hb5, ht]
      simp
    simp [run, hrun, hs]

/-- Witness for `invalid_opcode_amended` at the concrete byte 2. -/
theorem invalid_opcode_amended_witness :
    run 1 (mkCPU [2]) = .invalid 2 (mkCPU [2]) :=
  (invalid_opcode_amended (mkCPU [2]) 2 0 0 0 rfl rfl rfl rfl (by decide)
    (by decide)).1 (by decide)

/-- C7: executing JEQ sets `pc` to the value of the register named by the
operand byte exactly when bit 0 of the flag register is set, and to
`pc + 2` otherwise; JNE jumps exactly when that bit is clear; in both cases
the result is the final `pc` of the cycle — the loop adds no further
automatic advance, because both opcodes have the sets-PC bit. -/
theorem jeq_jne_branch_spec (s : CPU) (r v rb0 rb1 : Int)
    (hra : pyGet s.ram (s.pc + 1) = some r)
    (hv : pyGet s.register r = some v) :
    (pyGet s.ram s.pc = some 85 → pyGet s.ram (s.pc + 2) = some rb0 →
      step s = .ok { s with pc := if Int.land s.flag 1 ≠ 0 then v else s.pc + 2 }) ∧
    (pyGet s.ram s.pc = some 86 → pyGet s.ram (s.pc + 2) = some rb1 →
      step s = .ok { s with pc := if Int.land s.flag 1 = 0 then v else s.pc + 2 }) := by
  constructor
  · intro h0 h2
    rw [step_eq_stepWith h0 hra h2]
    have hw : stepWith s 85 r rb0 = (match jeq s with
      | .error e => .exn e s
      | .ok s1 => .ok s1) := rfl
    rw [hw]
    unfold jeq
    rw [hra, bind_idxE_some]
    by_cases hf : Int.land s.flag 1 = 0
    · simp [hf]
    · simp [hf, hv, bind_idxE_some]
  · intro h0 h2
    rw [step_eq_stepWith h0 hra h2]
    have hw : stepWith s 86 r rb1 = (match jne s with
      | .error e => .exn e s
      | .ok s1 => .ok s1) := rfl
    rw [hw]
    unfold jne
    rw [hra, bind_idxE_some]
    by_cases hf : Int.land s.flag 1 = 0
    · simp [hf, hv, bind_idxE_some]
    · simp [hf]

/-- Witness for `jeq_jne_branch_spec`: with the equal flag set, JEQ jumps to
`R0 = 9`. -/
theorem jeq_jne_branch_witness :
    step jeqState =
      .ok { jeqState with
              pc := if Int.land jeqState.flag 1 ≠ 0 then 9 else jeqState.pc + 2 } :=
  (jeq_jne_branch_spec jeqState 0 9 0 0 rfl rfl).1 rfl rfl

/-- C8: executing MOD with the divisor register holding 0 reports the
divide-by-zero failure and terminates execution immediately — the loop
result carries the unchanged state, so no later instruction (in particular
no PRN) runs; with a nonzero divisor, MOD stores `reg[a] mod reg[b]` (Python
floor-mod) into `reg[a]`, the machine keeps running and `pc` advances by the
decoded length 3. -/
theorem mod_spec (s : CPU) (ra rb b : Int) (n : Nat)
    (hrun : s.running = true)
    (h0 : pyGet s.ram s.pc = some 164)
    (h1 : pyGet s.ram (s.pc + 1) = some ra)
    (h2 : pyGet s.ram (s.pc + 2) = some rb)
    (hb : pyGet s.register rb = some b) :
    (b = 0 → run (n + 1) s = .exn .divZeroExit s) ∧
    (∀ a, b ≠ 0 → pyGet s.register ra = some a →
      ∃ reg, pySet s.register ra (Int.fmod a b) = some reg ∧
        step s = .ok { s with register := reg, pc := s.pc + 3 }) := by
  have hw : stepWith s 164 ra rb = (match MOD s ra rb with
    | .error e => .exn e s
    | .ok s1 => .ok { s1 with pc := s1.pc + 3 }) := rfl
  constructor
  · intro hbz
    subst hbz
    have hs : step s = .exn .divZeroExit s := by
      rw [step_eq_stepWith h0 h1 h2, hw]
      unfold MOD
      rw [hb, bind_idxE_some]
      simp
    simp [run, hrun, hs]
  · intro a hbne ha
    obtain ⟨m, hm⟩ := pyGet_pyIdx ha
    refine ⟨s.register.set m (Int.fmod a b), pySet_some_of_pyIdx hm _, ?_⟩
    rw [step_eq_stepWith h0 h1 h2, hw]
    unfold MOD
    rw [hb, bind_idxE_some]
    simp only [hbne, if_neg]
    rw [ha, bind_idxE_some, pySet_some_of_pyIdx hm, bind_idxE_some]
    simp [hbne]

/-- Witness for `mod_spec`: MOD with divisor register `R1 = 0` terminates
with the divide-by-zero report and the output list untouched. -/
theorem mod_div_zero_witness :
    run 1 modZeroState = .exn .divZeroExit modZeroState :=
  (mod_spec modZeroState 0 1 0 0 rfl rfl rfl rfl rfl).1 rfl

/-- C10: in every cycle whose fetched opcode is PUSH (69) or POP (70) and
whose handler completes, the program counter of the resulting state is
exactly `pc + 4`: the handler itself adds 2, and since bit 4 of both opcode
bytes is clear the loop adds the decoded length 2 on top, so the two bytes
after the operand byte are skipped, never fetched as instructions. -/
theorem push_pop_pc_advance (s t : CPU) (ra rb : Int)
    (h1 : pyGet s.ram (s.pc + 1) = some ra)
    (h2 : pyGet s.ram (s.pc + 2) = some rb) :
    (pyGet s.ram s.pc = some 69 → push s = Except.ok t →
      step s = .ok { t with pc := s.pc + 4 }) ∧
    (pyGet s.ram s.pc = some 70 → pop s = Except.ok t →
      step s = .ok { t with pc := s.pc + 4 }) := by
  constructor
  · intro h0 hp
    rw [step_eq_stepWith h0 h1 h2]
    have hw : stepWith s 69 ra rb = (match push s with
      | .error e => .exn e s
      | .ok s1 => .ok { s1 with pc := s1.pc + 2 }) := rfl
    rw [hw, hp]
    have h4 : t.pc + 2 = s.pc + 4 := by rw [push_ok_pc hp]; ring
    simp [h4]
  · intro h0 hp
    rw [step_eq_stepWith h0 h1 h2]
    have hw : stepWith s 70 ra rb = (match pop s with
      | .error e => .exn e s
      | .ok s1 => .ok { s1 with pc := s1.pc + 2 }) := rfl
    rw [hw, hp]
    have h4 : t.pc + 2 = s.pc + 4 := by rw [pop_ok_pc hp]; ring
    simp [h4]

/-- Witness for `push_pop_pc_advance`: a concrete PUSH cycle lands the
program counter on `pc + 4`. -/
theorem push_pop_pc_advance_witness :
    step (canonState 69) = .ok { pushedState with pc := (canonState 69).pc + 4 } :=
  (push_pop_pc_advance (canonState 69) pushedState 0 1 rfl rfl).1 rfl rfl

/-- C9 amended: Python list indexing gives out-of-bounds accesses neither an
`AddressOutOfRange` report nor a silent success policy uniformly — an index
at or above the length (or below `-length`) is an `IndexError`, which `step`
turns into an uncaught escaping exception, while a negative index down to
`-length` silently resolves to `length + i`, so decrementing SP below 0
wraps to the top of Memory and execution continues. -/
theorem address_bounds_amended (l : List Int) (i : Int) :
    ((l.length : Int) ≤ i → pyGet l i = none) ∧
    (i < -(l.length : Int) → pyGet l i = none) ∧
    (-(l.length : Int) ≤ i → i < 0 →
      pyGet l i = l.get? ((l.length : Int) + i).toNat) := by
  refine ⟨?_, ?_, ?_⟩
  · intro h
    unfold pyGet pyIdx
    rw [if_neg (by omega), if_neg (by omega)]
    rfl
  · intro h
    unfold pyGet pyIdx
    rw [if_neg (by omega), if_neg (by omega)]
    rfl
  · intro hge hlt
    unfold pyGet pyIdx
    rw [if_neg (by omega), if_pos ⟨hge, hlt⟩]
    rfl

/-- Witness for `address_bounds_amended` on the two-element list. -/
theorem address_bounds_amended_witness :
    pyGet [0, 1] 5 = none ∧ pyGet [0, 1] (-1) = some 1 := by
  constructor
  · exact (address_bounds_amended [0, 1] 5).1 (by decide)
  · have h := (address_bounds_amended [0, 1] (-1)).2.2 (by decide) (by decide)
    simpa using h

end LS8
